import Mathlib

/-!
# go-jsvm: the wrapped script runtime (`pkg/vm/vm.go`)

A shallow embedding of `WrappedVm` and its operations.

The Go package drives three collaborators that are not part of the repository:
the script interpreter (`goja`), the operating system (`os`, `io`) and the error
packages (`errors`, `go_error`).  They enter the model as follows.

* Go `error` values are the terms of `GoError`; each constructor is one of the
  ways the source builds an error.
* A Go call either returns or panics: `Outcome`.  The value carried by a panic is
  a `PanicVal`: it either implements `error` or it does not, which is what the
  unchecked assertion `err.(error)` of the two deferred handlers distinguishes.
* The interpreter is a parameter, `Engine`; the state of one interpreter instance
  is the list of its global bindings, `Goja`.
* The file system, the built-in module constructors and the default logger are
  the parameters of `Env`.
* Every operation also reports the list of external calls it made (`Event`), in
  order, so that statements such as "the file is never opened" can be expressed.
-/

namespace JsVm

/-! ## Values -/

/-- Go `error` values. -/
inductive GoError where
  /-- an error produced outside the package (os, io, the interpreter, the Go runtime) -/
  | ext (msg : String)
  /-- the result of `errors.New(msg)` and of `errors.Errorf`, with the formatted text -/
  | new (msg : String)
  /-- the result of `errors.Wrap(cause, msg)` -/
  | wrap (cause : GoError) (msg : String)
  /-- the result of `go_error.WithStack(cause)` -/
  | withStack (cause : GoError)
  deriving DecidableEq, Repr

/-- The method `Error()` of an error value. -/
def GoError.Error : GoError → String
  | .ext msg => msg
  | .new msg => msg
  | .wrap cause msg => msg ++ ": " ++ cause.Error
  | .withStack cause => cause.Error

/-- Host-native values: what a Go `interface{}` holds. -/
inductive HostVal where
  | nil
  | int (n : Int)
  | nan
  | str (s : String)
  | bool (b : Bool)
  /-- a nil slice `[]interface{}` held in an interface -/
  | nilSlice
  /-- a non-nil slice `[]interface{}` held in an interface -/
  | slice (xs : List HostVal)
  | object (id : Nat)

/-- A Go slice `[]interface{}`: `none` is the nil slice, `some []` a non-nil
slice of length 0. -/
abbrev GoSlice := Option (List HostVal)

/-- The slice as an `interface{}` value. -/
def GoSlice.toHost : GoSlice → HostVal
  | none => .nilSlice
  | some xs => .slice xs

/-- Script values: what a `goja.Value` holds.  Script functions are named by an
index; `Engine.call` gives their behaviour. -/
inductive JsVal where
  | undefined
  | null
  | nan
  | num (n : Int)
  | str (s : String)
  | bool (b : Bool)
  | arr (xs : List JsVal)
  | func (id : Nat)
  | host (id : Nat)

/-- The value carried by a Go panic. -/
inductive PanicVal where
  /-- a value that implements `error` -/
  | error (e : GoError)
  /-- a value of the named dynamic type, which does not implement `error` -/
  | other (goType : String)
  deriving DecidableEq, Repr

/-- The two ways a Go call ends. -/
inductive Outcome (α : Type) where
  | ret (a : α)
  | panic (p : PanicVal)

/-- Conversion of a returned value; a panic passes through. -/
def Outcome.map {α β : Type} (f : α → β) : Outcome α → Outcome β
  | .ret a => .ret (f a)
  | .panic p => .panic p

/-- Whether the call returned. -/
def Outcome.returned {α : Type} : Outcome α → Bool
  | .ret _ => true
  | .panic _ => false

/-! ## The collaborators -/

/-- State of one interpreter instance (`goja.Runtime`): its global bindings,
the most recent first. -/
structure Goja where
  globals : List (String × JsVal)

/-- The external calls an operation makes, in the order it makes them. -/
inductive Event where
  /-- Go `os.Stat(path)` -/
  | stat (path : String)
  /-- Go `os.Open(path)` -/
  | fileOpen (path : String)
  /-- Go `io.ReadAll(f)` -/
  | readAll (file : Nat)
  /-- the deferred `f.Close()` -/
  | close (file : Nat)
  /-- Go `goja.New()` followed by `SetFieldNameMapper` -/
  | newInterp
  /-- Go `Vm.Set(name, value)` -/
  | set (name : String) (value : HostVal)
  /-- Go `Vm.RunString(script)` -/
  | runString (script : String)
  /-- Go `Vm.Get(name)` -/
  | get (name : String)
  /-- Go `Vm.ExportTo(value, &mainFunc)` -/
  | exportTo (value : JsVal)
  /-- the call `mainFunc(args)` of `RunFunc` -/
  | invoke (args : GoSlice)
  /-- entry into script function `f` with the positional arguments `args` -/
  | scriptCall (f : Nat) (args : List JsVal)

/-- Whether the event is a call of a function of the script. -/
def Event.isCall : Event → Bool
  | .invoke _ => true
  | .scriptCall _ _ => true
  | _ => false

/-- The interpreter, as far as the package relies on it. -/
structure Engine where
  /-- the global bindings of a new interpreter -/
  fresh : Goja
  /-- Go `Runtime.ToValue`: host value to script value -/
  toValue : HostVal → JsVal
  /-- Go `Value.Export`: script value to host value -/
  exportValue : JsVal → HostVal
  /-- the error with which `Set` refuses a binding, if it does -/
  setFault : Goja → String → HostVal → Option GoError
  /-- Go `RunString`: parse the text and run its top level -/
  runString : Goja → String → Goja × Option GoError
  /-- the error value raised when a name without binding is resolved -/
  absentFault : String → GoError
  /-- the error of `ExportTo` for a value that is not a function -/
  exportFault : JsVal → GoError
  /-- the body of script function `f` run on positional arguments -/
  call : Nat → List JsVal → Goja → Outcome JsVal × Goja

/-- Result of `os.Stat`, as far as `NewVmWithFile` reads it. -/
structure FileInfo where
  /-- Go `fileInfo.IsDir()` -/
  IsDir : Bool
  /-- Go `fileInfo.Mode().IsRegular()` -/
  IsRegular : Bool

/-- Everything outside the package. -/
structure Env where
  engine : Engine
  /-- Go `os.Stat` -/
  stat : String → Except GoError FileInfo
  /-- Go `os.Open`, returning a file handle -/
  fileOpen : String → Except GoError Nat
  /-- Go `io.ReadAll`, with the bytes read as text -/
  readAll : Nat → Except GoError String
  /-- Go `module.NewConsoleModule(v)` -/
  consoleModule : HostVal
  /-- Go `module.NewRegexModule(v)` -/
  regexModule : HostVal
  /-- Go `go_logger.Logger` -/
  defaultLogger : Nat

/-- Go `Runtime.Set`: bind `name` to the converted value unless the interpreter
refuses. -/
def Engine.Set (E : Engine) (g : Goja) (name : String) (value : HostVal) :
    Goja × Option GoError :=
  match E.setFault g name value with
  | some e => (g, some e)
  | none => (⟨(name, E.toValue value) :: g.globals⟩, none)

/-- Go `Runtime.Get`, as the source reads it: "panic when not found". -/
def Engine.Get (E : Engine) (g : Goja) (name : String) : Outcome JsVal :=
  match g.globals.lookup name with
  | some v => .ret v
  | none => .panic (.error (E.absentFault name))

/-! ## The package -/

/-- Go `type MainFuncType func([]interface{}) interface{}`: a host function of ONE
parameter, the slice.  Running it may change the interpreter and enters script
code, hence the state and the events. -/
abbrev MainFuncType := GoSlice → Goja → Outcome HostVal × Goja × List Event

/-- The host function that `ExportTo` makes from script function `f` at the type
`MainFuncType`: each host parameter becomes one script argument through
`ToValue`, the script result comes back through `Export`.  `MainFuncType` has a
single parameter, so the script function is entered with a single argument, the
script value of the slice. -/
def gateway (E : Engine) (f : Nat) : MainFuncType :=
  fun args g =>
    let jsArgs := [E.toValue args.toHost]
    let r := E.call f jsArgs g
    (r.1.map E.exportValue, r.2, [.scriptCall f jsArgs])

/-- Go `Runtime.ExportTo(value, &mainFunc)`: a script function is wrapped as a
host function, any other value is refused. -/
def Engine.ExportTo (E : Engine) (value : JsVal) : Except GoError MainFuncType :=
  match value with
  | .func f => .ok (gateway E f)
  | v => .error (E.exportFault v)

/-- Go `type WrappedVm struct` -/
structure WrappedVm where
  Vm : Goja
  script : String
  logger : Nat

/-- Go `func (v *WrappedVm) SetLogger` -/
def SetLogger (v : WrappedVm) (logger : Nat) : WrappedVm :=
  { v with logger := logger }

/-- Go `func (v *WrappedVm) Logger` -/
def Logger (v : WrappedVm) : Nat :=
  v.logger

/-- Go `func (v *WrappedVm) ToValue` -/
def ToValue (E : Engine) (_v : WrappedVm) (i : HostVal) : JsVal :=
  E.toValue i

/-- Go `func (v *WrappedVm) RegisterModule`: the runtime afterwards, the error and
the events. -/
def RegisterModule (E : Engine) (v : WrappedVm) (moduleName : String) (module : HostVal) :
    WrappedVm × Option GoError × List Event :=
  let r := E.Set v.Vm moduleName module
  match r.2 with
  | some err => ({ v with Vm := r.1 }, some (.withStack err), [.set moduleName module])
  | none => ({ v with Vm := r.1 }, none, [.set moduleName module])

/-- Go `func (v *WrappedVm) registerModules` -/
def registerModules (X : Env) (v : WrappedVm) : WrappedVm × Option GoError × List Event :=
  let r1 := RegisterModule X.engine v "console" X.consoleModule
  match r1.2.1 with
  | some err => (r1.1, some err, r1.2.2)
  | none =>
    let r2 := RegisterModule X.engine r1.1 "regex" X.regexModule
    match r2.2.1 with
    | some err => (r2.1, some err, r1.2.2 ++ r2.2.2)
    | none => (r2.1, none, r1.2.2 ++ r2.2.2)

/-- What a constructor returns: `(*WrappedVm, error)` and the events. -/
structure NewResult where
  vm : Option WrappedVm
  err : Option GoError
  events : List Event

/-- The value `wrappedVm` that `NewVm` builds around the new interpreter. -/
def initialVm (X : Env) (script : String) : WrappedVm :=
  { Vm := X.engine.fresh, script := script, logger := X.defaultLogger }

/-- Go `func NewVm(script string) (*WrappedVm, error)` -/
def NewVm (X : Env) (script : String) : NewResult :=
  let wrappedVm : WrappedVm := initialVm X script
  let r := registerModules X wrappedVm
  match r.2.1 with
  | some err => { vm := none, err := some err, events := .newInterp :: r.2.2 }
  | none =>
    let s := X.engine.runString r.1.Vm script
    match s.2 with
    | some err =>
      { vm := none, err := some err, events := .newInterp :: r.2.2 ++ [.runString script] }
    | none =>
      { vm := some { r.1 with Vm := s.1 }, err := none,
        events := .newInterp :: r.2.2 ++ [.runString script] }

/-- Go `func NewVmWithFile(jsFilename string) (*WrappedVm, error)` -/
def NewVmWithFile (X : Env) (jsFilename : String) : NewResult :=
  match X.stat jsFilename with
  | .error err => { vm := none, err := some (.withStack err), events := [.stat jsFilename] }
  | .ok fileInfo =>
    if fileInfo.IsDir || !fileInfo.IsRegular then
      { vm := none, err := some (.new "illegal js file"), events := [.stat jsFilename] }
    else
      match X.fileOpen jsFilename with
      | .error err =>
        { vm := none, err := some (.withStack err),
          events := [.stat jsFilename, .fileOpen jsFilename] }
      | .ok f =>
        match X.readAll f with
        | .error err =>
          { vm := none, err := some (.withStack err),
            events := [.stat jsFilename, .fileOpen jsFilename, .readAll f, .close f] }
        | .ok content =>
          let r := NewVm X content
          match r.err with
          | some err =>
            { vm := none, err := some (.withStack err),
              events := [.stat jsFilename, .fileOpen jsFilename, .readAll f] ++ r.events
                ++ [.close f] }
          | none =>
            { vm := r.vm, err := none,
              events := [.stat jsFilename, .fileOpen jsFilename, .readAll f] ++ r.events
                ++ [.close f] }

/-- The unchecked assertion `err.(error)` of the deferred handlers, applied to a
recovered panic value.  On a value that does not implement `error` the assertion
itself panics, with a `*runtime.TypeAssertionError`, which is an error value. -/
def assertError : PanicVal → Outcome GoError
  | .error e => .ret e
  | .other goType =>
    .panic (.error (.ext
      ("interface conversion: " ++ goType ++ " is not error: missing method Error")))

/-- Text built by `errors.Errorf("function %s run failed - %s", funcName, msg)`. -/
def runFailedText (funcName msg : String) : String :=
  "function " ++ funcName ++ " run failed - " ++ msg

/-- Text built by `fmt.Sprintf("js function <%s> not be found", funcName)`. -/
def notFoundText (funcName : String) : String :=
  "js function <" ++ funcName ++ "> not be found"

/-- Text built by `fmt.Sprintf("export js function <%s> error", funcName)`. -/
def exportErrorText (funcName : String) : String :=
  "export js function <" ++ funcName ++ "> error"

/-- What `findFunc` returns: `(MainFuncType, error)`, or a panic, and the events. -/
structure FindResult where
  out : Outcome (Option MainFuncType × Option GoError)
  events : List Event

/-- Body of `findFunc`, before the deferred handler runs. -/
def findFuncBody (E : Engine) (v : WrappedVm) (funcName : String) : FindResult :=
  match E.Get v.Vm funcName with
  | .panic p => { out := .panic p, events := [.get funcName] }
  | .ret jsFunc =>
    match E.ExportTo jsFunc with
    | .error err =>
      { out := .ret (none, some (.wrap err (exportErrorText funcName))),
        events := [.get funcName, .exportTo jsFunc] }
    | .ok mainFunc =>
      { out := .ret (some mainFunc, none), events := [.get funcName, .exportTo jsFunc] }

/-- Go `func (v *WrappedVm) findFunc`: the body, then the deferred handler, which
on a recovered panic leaves `result` nil and sets `err_`. -/
def findFunc (E : Engine) (v : WrappedVm) (funcName : String) : FindResult :=
  let b := findFuncBody E v funcName
  match b.out with
  | .ret r => { out := .ret r, events := b.events }
  | .panic p =>
    match assertError p with
    | .ret e => { out := .ret (none, some (.wrap e (notFoundText funcName))), events := b.events }
    | .panic q => { out := .panic q, events := b.events }

/-- What `RunFunc` returns: `(interface{}, error)`, or a panic that leaves the
function; the interpreter afterwards; the events. -/
structure RunResult where
  out : Outcome (HostVal × Option GoError)
  vm : Goja
  events : List Event

/-- The argument substitution of `RunFunc`: `if args == nil`. -/
def normalizeArgs (args : GoSlice) : GoSlice :=
  match args with
  | none => some [.str "undefined"]
  | some xs => some xs

/-- Body of `RunFunc`, before the deferred handler runs. -/
def runFuncBody (E : Engine) (v : WrappedVm) (funcName : String) (args : GoSlice) : RunResult :=
  let args := normalizeArgs args
  let r := findFunc E v funcName
  match r.out with
  | .panic p => { out := .panic p, vm := v.Vm, events := r.events }
  | .ret (_, some err) =>
    { out := .ret (.str "", some (.new (runFailedText funcName err.Error))), vm := v.Vm,
      events := r.events }
  | .ret (none, none) =>
    -- a call through a nil function value
    { out := .panic (.error (.ext "runtime error: invalid memory address or nil pointer dereference")),
      vm := v.Vm, events := r.events ++ [.invoke args] }
  | .ret (some mainFunc, none) =>
    let c := mainFunc args v.Vm
    match c.1 with
    | .panic p => { out := .panic p, vm := c.2.1, events := r.events ++ .invoke args :: c.2.2 }
    | .ret mainFuncResult =>
      { out := .ret (mainFuncResult, none), vm := c.2.1,
        events := r.events ++ .invoke args :: c.2.2 }

/-- Go `func (v *WrappedVm) RunFunc`: the body, then the deferred handler, which on
a recovered panic leaves `result` nil and sets `err_`. -/
def RunFunc (E : Engine) (v : WrappedVm) (funcName : String) (args : GoSlice) : RunResult :=
  let b := runFuncBody E v funcName args
  match b.out with
  | .ret _ => b
  | .panic p =>
    match assertError p with
    | .ret e =>
      { b with out := .ret (.nil, some (.new (runFailedText funcName e.Error))) }
    | .panic q => { b with out := .panic q }

/-- Go `func (v *WrappedVm) Run` -/
def Run (E : Engine) (v : WrappedVm) (args : GoSlice) : RunResult :=
  RunFunc E v "main" args

/-! ## A reference interpreter

One concrete `Engine` and `Env`, used to run the package on explicit inputs.  Its
script values follow the ECMAScript rules for the few operators the example
scripts use; the scripts it knows are listed in `refRunString`. -/

mutual
/-- ECMAScript `ToString`. -/
def jsToString : JsVal → String
  | .undefined => "undefined"
  | .null => "null"
  | .nan => "NaN"
  | .num n => toString n
  | .str s => s
  | .bool b => toString b
  | .arr xs => jsJoin xs
  | .func _ => "function"
  | .host _ => "[object Object]"
/-- ECMAScript `Array.prototype.join` with the separator `,`: undefined and null
elements give the empty text. -/
def jsJoin : List JsVal → String
  | [] => ""
  | .undefined :: [] => ""
  | .null :: [] => ""
  | x :: [] => jsToString x
  | .undefined :: y :: rest => "," ++ jsJoin (y :: rest)
  | .null :: y :: rest => "," ++ jsJoin (y :: rest)
  | x :: y :: rest => jsToString x ++ "," ++ jsJoin (y :: rest)
end

/-- ECMAScript `ToPrimitive`: objects become their text. -/
def jsToPrimitive : JsVal → JsVal
  | .arr xs => .str (jsJoin xs)
  | .func f => .str (jsToString (.func f))
  | .host h => .str (jsToString (.host h))
  | v => v

/-- ECMAScript `ToNumber` on a primitive that is not a string; `none` is NaN. -/
def jsToNumber : JsVal → Option Int
  | .null => some 0
  | .num n => some n
  | .bool true => some 1
  | .bool false => some 0
  | _ => none

/-- ECMAScript `a + b`. -/
def jsAdd (a b : JsVal) : JsVal :=
  match jsToPrimitive a, jsToPrimitive b with
  | .str s, q => .str (s ++ jsToString q)
  | p, .str t => .str (jsToString p ++ t)
  | p, q =>
    match jsToNumber p, jsToNumber q with
    | some m, some n => .num (m + n)
    | _, _ => .nan

/-- Positional parameter `i` of a script function entered with `args`: missing
arguments are undefined. -/
def jsParam (args : List JsVal) (i : Nat) : JsVal :=
  args.getD i .undefined

/-- ECMAScript `a[i]` on an array; `none` where the access throws. -/
def jsIndex (a : JsVal) (i : Nat) : Option JsVal :=
  match a with
  | .arr xs => some (xs.getD i .undefined)
  | .undefined => none
  | .null => none
  | _ => some .undefined

mutual
/-- Conversion of a host value to a script value (`ToValue`). -/
def refToValue : HostVal → JsVal
  | .nil => .null
  | .int n => .num n
  | .nan => .nan
  | .str s => .str s
  | .bool b => .bool b
  | .nilSlice => .null
  | .slice xs => .arr (refToValues xs)
  | .object id => .host id
/-- Conversion of the elements of a slice. -/
def refToValues : List HostVal → List JsVal
  | [] => []
  | x :: xs => refToValue x :: refToValues xs
end

mutual
/-- Conversion of a script value to a host value (`Export`). -/
def refExport : JsVal → HostVal
  | .undefined => .nil
  | .null => .nil
  | .nan => .nan
  | .num n => .int n
  | .str s => .str s
  | .bool b => .bool b
  | .arr xs => .slice (refExports xs)
  | .func id => .object id
  | .host id => .object id
/-- Conversion of the elements of an array. -/
def refExports : List JsVal → List HostVal
  | [] => []
  | x :: xs => refExport x :: refExports xs
end

/-- Script text `function main(a,b){return a+b}`. -/
def sumScript : String := "function main(a,b)\x7breturn a+b\x7d"

/-- Script text `function main(a,b){return a[0]+a[1]}`. -/
def indexScript : String := "function main(a,b)\x7breturn a[0]+a[1]\x7d"

/-- Script text of a `main` that throws `new Error("boom")`. -/
def throwScript : String := "function main()\x7bthrow new Error(\"boom\")\x7d"

/-- Script text of a `main` that calls the host function `fail`, which panics
with a Go string. -/
def hostPanicScript : String := "function main()\x7breturn fail()\x7d"

/-- Script text of a `main` that ignores its arguments. -/
def constScript : String := "function main()\x7breturn 42\x7d"

/-- Script text that does not parse. -/
def brokenScript : String := "function main("

/-- Bodies of the script functions of the reference interpreter, by index. -/
def refCall (f : Nat) (args : List JsVal) (g : Goja) : Outcome JsVal × Goja :=
  match f with
  | 0 => (.ret (jsAdd (jsParam args 0) (jsParam args 1)), g)
  | 1 =>
    match jsIndex (jsParam args 0) 0, jsIndex (jsParam args 0) 1 with
    | some x, some y => (.ret (jsAdd x y), g)
    | _, _ => (.panic (.error (.ext "TypeError: Cannot read property 0 of undefined")), g)
  | 2 => (.panic (.error (.ext "Error: boom")), g)
  | 3 => (.panic (.other "string"), g)
  | 4 => (.ret (.num 42), g)
  | _ => (.ret .undefined, g)

/-- Top-level execution in the reference interpreter: each known script binds
`main`; the broken one is a syntax error; any other text changes nothing. -/
def refRunString (g : Goja) (script : String) : Goja × Option GoError :=
  if script = sumScript then (⟨("main", .func 0) :: g.globals⟩, none)
  else if script = indexScript then (⟨("main", .func 1) :: g.globals⟩, none)
  else if script = throwScript then (⟨("main", .func 2) :: g.globals⟩, none)
  else if script = hostPanicScript then (⟨("main", .func 3) :: g.globals⟩, none)
  else if script = constScript then (⟨("main", .func 4) :: g.globals⟩, none)
  else if script = brokenScript then (g, some (.ext "SyntaxError: Unexpected end of input"))
  else (g, none)

/-- The reference interpreter. -/
def refEngine : Engine where
  fresh := ⟨[]⟩
  toValue := refToValue
  exportValue := refExport
  setFault := fun _ name _ =>
    if name = "undefined" then some (.ext "TypeError: Cannot assign to read only property")
    else none
  runString := refRunString
  absentFault := fun _ =>
    .ext "runtime error: invalid memory address or nil pointer dereference"
  exportFault := fun _ => .ext "TypeError: could not convert to func"
  call := refCall

/-- The reference environment: `/tmp` is a directory, `/dev/null` a device,
`main.js` a regular file holding `sumScript`; no other path exists. -/
def refEnv : Env where
  engine := refEngine
  stat := fun path =>
    if path = "/tmp" then .ok { IsDir := true, IsRegular := false }
    else if path = "/dev/null" then .ok { IsDir := false, IsRegular := false }
    else if path = "main.js" then .ok { IsDir := false, IsRegular := true }
    else .error (.ext ("stat " ++ path ++ ": no such file or directory"))
  fileOpen := fun path =>
    if path = "main.js" then .ok 3
    else .error (.ext ("open " ++ path ++ ": no such file or directory"))
  readAll := fun _ => .ok sumScript
  consoleModule := .object 1
  regexModule := .object 2
  defaultLogger := 0

/-- The runtime `NewVm` builds in the reference environment from a script that
binds `main` to script function `f`. -/
def refVm (f : Nat) (script : String) : WrappedVm :=
  { Vm := ⟨[("main", .func f), ("regex", .host 2), ("console", .host 1)]⟩,
    script := script, logger := 0 }

/-! ## Resolution and invocation: general facts -/

theorem exportTo_func (E : Engine) (f : Nat) :
    E.ExportTo (.func f) = .ok (gateway E f) := rfl

theorem findFunc_bound (E : Engine) (v : WrappedVm) (name : String) (f : Nat)
    (hget : v.Vm.globals.lookup name = some (.func f)) :
    findFunc E v name =
      { out := .ret (some (gateway E f), none),
        events := [.get name, .exportTo (.func f)] } := by
  simp [findFunc, findFuncBody, Engine.Get, hget, exportTo_func]

theorem findFunc_absent (E : Engine) (v : WrappedVm) (name : String)
    (hget : v.Vm.globals.lookup name = none) :
    findFunc E v name =
      { out := .ret (none, some (.wrap (E.absentFault name) (notFoundText name))),
        events := [.get name] } := by
  simp [findFunc, findFuncBody, Engine.Get, hget, assertError]

theorem runFuncBody_bound (E : Engine) (v : WrappedVm) (name : String) (f : Nat)
    (args : GoSlice) (hget : v.Vm.globals.lookup name = some (.func f)) :
    runFuncBody E v name args =
      { out := match (gateway E f (normalizeArgs args) v.Vm).1 with
          | .panic p => .panic p
          | .ret r => .ret (r, none),
        vm := (gateway E f (normalizeArgs args) v.Vm).2.1,
        events := [.get name, .exportTo (.func f), .invoke (normalizeArgs args),
          .scriptCall f [E.toValue (normalizeArgs args).toHost]] } := by
  simp only [runFuncBody, findFunc_bound E v name f hget]
  cases h : (gateway E f (normalizeArgs args) v.Vm).1 <;> simp [gateway]

theorem infix_runFailed_name (name msg : String) :
    name.data <:+: (runFailedText name msg).data :=
  ⟨"function ".data, (" run failed - " ++ msg).data, by
    simp [runFailedText, String.data_append]⟩

theorem infix_runFailed_msg (name msg : String) :
    msg.data <:+: (runFailedText name msg).data :=
  ⟨("function " ++ name ++ " run failed - ").data, [], by
    simp [runFailedText, String.data_append]⟩

/-! ## Faults raised during invocation -/

/-- C1 (the code at the failing input class).  When the resolved function raises
a fault whose value does not implement `error` (a panic with a Go string, say),
the assertion `err.(error)` in the deferred handler of `RunFunc` panics in its
turn: `RunFunc` does not return, a panic leaves it. -/
theorem RunFunc_nonerror_fault_escapes (E : Engine) (v : WrappedVm) (name : String)
    (args : GoSlice) (f : Nat) (goType : String)
    (hget : v.Vm.globals.lookup name = some (.func f))
    (hfault : ∀ as, (E.call f as v.Vm).1 = .panic (.other goType)) :
    (RunFunc E v name args).out =
        .panic (.error (.ext
          ("interface conversion: " ++ goType ++ " is not error: missing method Error")))
      ∧ (RunFunc E v name args).out.returned = false := by
  have hb := runFuncBody_bound E v name f args hget
  simp [RunFunc, hb, gateway, hfault, Outcome.map, assertError, Outcome.returned]

/-- C1, at the reference interpreter: `main` calls a host function that panics
with a Go string; `Run(nil)` ends in a panic. -/
theorem RunFunc_nonerror_fault_escapes_witness :
    (refVm 3 hostPanicScript).Vm.globals.lookup "main" = some (.func 3)
      ∧ (∀ as, (refEngine.call 3 as (refVm 3 hostPanicScript).Vm).1 = .panic (.other "string"))
      ∧ (RunFunc refEngine (refVm 3 hostPanicScript) "main" none).out =
          .panic (.error (.ext
            "interface conversion: string is not error: missing method Error"))
      ∧ (RunFunc refEngine (refVm 3 hostPanicScript) "main" none).out.returned = false :=
  ⟨rfl, fun _ => rfl,
    RunFunc_nonerror_fault_escapes refEngine (refVm 3 hostPanicScript) "main" none 3 "string"
      rfl (fun _ => rfl)⟩

/-- C2.  When `name` resolves to a script function that throws an error `e`
whenever it is called, `RunFunc(name, args)` returns a nil result and the error
whose text is exactly `function <name> run failed - <e.Error()>`; that text
contains both the name and the message. -/
theorem RunFunc_throw (E : Engine) (v : WrappedVm) (name : String) (args : GoSlice)
    (f : Nat) (e : GoError)
    (hget : v.Vm.globals.lookup name = some (.func f))
    (hthrow : ∀ as, (E.call f as v.Vm).1 = .panic (.error e)) :
    (RunFunc E v name args).out =
        .ret (.nil, some (.new ("function " ++ name ++ " run failed - " ++ e.Error)))
      ∧ name.data <:+: ("function " ++ name ++ " run failed - " ++ e.Error).data
      ∧ e.Error.data <:+: ("function " ++ name ++ " run failed - " ++ e.Error).data := by
  have hb := runFuncBody_bound E v name f args hget
  refine ⟨?_, infix_runFailed_name name e.Error, infix_runFailed_msg name e.Error⟩
  simp [RunFunc, hb, gateway, hthrow, Outcome.map, assertError, runFailedText]

/-- C2, at the reference interpreter: `main` throws `Error: boom`. -/
theorem RunFunc_throw_witness :
    (RunFunc refEngine (refVm 2 throwScript) "main" (some [.int 1])).out =
        .ret (.nil, some (.new "function main run failed - Error: boom"))
      ∧ "main".data <:+: "function main run failed - Error: boom".data
      ∧ "Error: boom".data <:+: "function main run failed - Error: boom".data :=
  RunFunc_throw refEngine (refVm 2 throwScript) "main" (some [.int 1]) 2 (.ext "Error: boom")
    rfl (fun _ => rfl)

/-! ## Resolution of the name -/

/-- C3.  When `name` has no binding in the global scope, `RunFunc(name, args)`
returns (with the empty string as result) a non-nil error whose text is
`function <name> run failed - js function <name> not be found: <cause>`, which
reports the function as not found and carries the name; none of the calls made
is a call of a script function. -/
theorem RunFunc_absent (E : Engine) (v : WrappedVm) (name : String) (args : GoSlice)
    (hget : v.Vm.globals.lookup name = none) :
    (RunFunc E v name args).out =
        .ret (.str "", some (.new ("function " ++ name ++ " run failed - js function <"
          ++ name ++ "> not be found: " ++ (E.absentFault name).Error)))
      ∧ (∀ ev ∈ (RunFunc E v name args).events, ev.isCall = false)
      ∧ name.data <:+: ("function " ++ name ++ " run failed - js function <"
          ++ name ++ "> not be found: " ++ (E.absentFault name).Error).data
      ∧ "not be found".data <:+: ("function " ++ name ++ " run failed - js function <"
          ++ name ++ "> not be found: " ++ (E.absentFault name).Error).data := by
  have hf := findFunc_absent E v name hget
  refine ⟨?_, ?_, ?_, ?_⟩
  · simp only [RunFunc, runFuncBody, hf, runFailedText, notFoundText, GoError.Error]
    refine congrArg (fun t => Outcome.ret (HostVal.str "", some (GoError.new t))) ?_
    apply String.ext
    simp [String.data_append]
  · simp [RunFunc, runFuncBody, hf, Event.isCall]
  · exact ⟨"function ".data, (" run failed - js function <"
      ++ name ++ "> not be found: " ++ (E.absentFault name).Error).data, by
        simp [String.data_append]⟩
  · exact ⟨("function " ++ name ++ " run failed - js function <" ++ name ++ "> ").data,
      (": " ++ (E.absentFault name).Error).data, by
        simp [String.data_append]⟩

/-- C3, at the reference interpreter: `nope` is not bound. -/
theorem RunFunc_absent_witness :
    (refVm 0 sumScript).Vm.globals.lookup "nope" = none
      ∧ (RunFunc refEngine (refVm 0 sumScript) "nope" (some [.int 1])).out =
        .ret (.str "", some (.new ("function " ++ "nope" ++ " run failed - js function <"
          ++ "nope" ++ "> not be found: " ++ (refEngine.absentFault "nope").Error)))
      ∧ (∀ ev ∈ (RunFunc refEngine (refVm 0 sumScript) "nope" (some [.int 1])).events,
          ev.isCall = false) :=
  ⟨rfl, (RunFunc_absent refEngine (refVm 0 sumScript) "nope" (some [.int 1]) rfl).1,
    (RunFunc_absent refEngine (refVm 0 sumScript) "nope" (some [.int 1]) rfl).2.1⟩

/-! ## Argument substitution -/

/-- C4 (counterexample).  At the reference interpreter, `RunFunc` with the
non-nil list of length 0 invokes `main` with that empty list: no placeholder is
substituted, and the script function receives the empty array. -/
theorem RunFunc_empty_list_no_placeholder :
    (RunFunc refEngine (refVm 4 constScript) "main" (some [])).events =
        [.get "main", .exportTo (.func 4), .invoke (some []), .scriptCall 4 [.arr []]]
      ∧ normalizeArgs (some []) = some []
      ∧ normalizeArgs (some []) ≠ some [.str "undefined"] := by
  refine ⟨rfl, rfl, ?_⟩
  intro h
  cases h

/-- C4 (amended).  `RunFunc` invokes the resolved function with
`normalizeArgs args`: the list holding the one placeholder `"undefined"` when
`args` is the nil slice, and `args` unchanged when it is not nil, be it empty or
not. -/
theorem RunFunc_invokes_with (E : Engine) (v : WrappedVm) (name : String) (f : Nat)
    (hget : v.Vm.globals.lookup name = some (.func f)) :
    (∀ args, (RunFunc E v name args).events =
        [.get name, .exportTo (.func f), .invoke (normalizeArgs args),
          .scriptCall f [E.toValue (normalizeArgs args).toHost]])
      ∧ normalizeArgs none = some [.str "undefined"]
      ∧ (∀ xs, normalizeArgs (some xs) = some xs) := by
  refine ⟨fun args => ?_, rfl, fun _ => rfl⟩
  have hb := runFuncBody_bound E v name f args hget
  simp only [RunFunc, hb]
  split
  · rfl
  · split <;> rfl

/-- C4 (amended), at the reference interpreter: with the nil slice `main` is
invoked with the placeholder list. -/
theorem RunFunc_invokes_with_witness :
    (refVm 4 constScript).Vm.globals.lookup "main" = some (.func 4)
      ∧ (RunFunc refEngine (refVm 4 constScript) "main" none).events =
        [.get "main", .exportTo (.func 4), .invoke (some [.str "undefined"]),
          .scriptCall 4 [.arr [.str "undefined"]]] :=
  ⟨rfl, (RunFunc_invokes_with refEngine (refVm 4 constScript) "main" 4 rfl).1 none⟩

/-! ## Construction -/

theorem registerModule_err (E : Engine) (w : WrappedVm) (name : String) (c : HostVal) :
    (RegisterModule E w name c).2.1 = (E.setFault w.Vm name c).map GoError.withStack := by
  unfold RegisterModule
  simp only [Engine.Set]
  cases h : E.setFault w.Vm name c <;> simp

/-- C5.  `NewVm` returns either a runtime and a nil error, or no runtime and a
non-nil error; the error is non-nil exactly when the registration of `console`
fails, or that of `regex` fails, or the interpreter fails to parse or run the
top level of the script. -/
theorem NewVm_runtime_xor_error (X : Env) (script : String) :
    ((∃ w, (NewVm X script).vm = some w ∧ (NewVm X script).err = none)
        ∨ ((NewVm X script).vm = none ∧ ∃ e, (NewVm X script).err = some e))
      ∧ ((NewVm X script).err ≠ none ↔
          ((RegisterModule X.engine (initialVm X script) "console" X.consoleModule).2.1 ≠ none
            ∨ (RegisterModule X.engine
                (RegisterModule X.engine (initialVm X script) "console" X.consoleModule).1
                "regex" X.regexModule).2.1 ≠ none
            ∨ (X.engine.runString
                (RegisterModule X.engine
                  (RegisterModule X.engine (initialVm X script) "console" X.consoleModule).1
                  "regex" X.regexModule).1.Vm script).2 ≠ none)) := by
  simp only [NewVm, registerModules]
  cases h1 : (RegisterModule X.engine (initialVm X script) "console" X.consoleModule).2.1 with
  | some e1 => simp
  | none =>
    cases h2 : (RegisterModule X.engine
        (RegisterModule X.engine (initialVm X script) "console" X.consoleModule).1
        "regex" X.regexModule).2.1 with
    | some e2 => simp
    | none =>
      cases h3 : (X.engine.runString
          (RegisterModule X.engine
            (RegisterModule X.engine (initialVm X script) "console" X.consoleModule).1
            "regex" X.regexModule).1.Vm script).2 with
      | some e3 => simp
      | none => simp

/-- C5, at the reference environment: a script with a syntax error gives an
error and no runtime. -/
theorem NewVm_runtime_xor_error_witness :
    (NewVm refEnv brokenScript).err ≠ none ∧ (NewVm refEnv brokenScript).vm = none :=
  ⟨(NewVm_runtime_xor_error refEnv brokenScript).2.mpr (Or.inr (Or.inr (by decide))), rfl⟩

/-! ## Construction from a file -/

/-- C6 (counterexample).  In the reference environment `missing.js` does not
exist; `NewVmWithFile` fails with the wrapped error of `os.Stat`, which is not
the `illegal js file` error, neither as a value nor by its text. -/
theorem NewVmWithFile_missing_not_illegal :
    refEnv.stat "missing.js"
        = .error (.ext "stat missing.js: no such file or directory")
      ∧ (NewVmWithFile refEnv "missing.js").err
        = some (.withStack (.ext "stat missing.js: no such file or directory"))
      ∧ (NewVmWithFile refEnv "missing.js").err ≠ some (.new "illegal js file")
      ∧ (NewVmWithFile refEnv "missing.js").err.map GoError.Error ≠ some "illegal js file" := by
  refine ⟨rfl, rfl, ?_, ?_⟩ <;> decide

/-- C6 (amended).  For a path whose stat fails (it does not exist) or whose stat
describes a directory or a file that is not regular, `NewVmWithFile` returns no
runtime and a non-nil error: the error of the stat, wrapped with its stack, in
the first case, and the `illegal js file` error in the others. -/
theorem NewVmWithFile_rejects (X : Env) (path : String)
    (hbad : ∀ info, X.stat path = .ok info → info.IsDir = true ∨ info.IsRegular = false) :
    (NewVmWithFile X path).vm = none
      ∧ (NewVmWithFile X path).err =
        (match X.stat path with
          | .error e => some (.withStack e)
          | .ok _ => some (.new "illegal js file")) := by
  unfold NewVmWithFile
  cases hs : X.stat path with
  | error e => simp
  | ok info =>
    rcases hbad info hs with h | h <;> simp [h]

/-- C6 (amended), at the reference environment: a directory, a device and a
missing path. -/
theorem NewVmWithFile_rejects_witness :
    ((NewVmWithFile refEnv "/tmp").vm = none
        ∧ (NewVmWithFile refEnv "/tmp").err = some (.new "illegal js file"))
      ∧ ((NewVmWithFile refEnv "/dev/null").vm = none
        ∧ (NewVmWithFile refEnv "/dev/null").err = some (.new "illegal js file"))
      ∧ ((NewVmWithFile refEnv "missing.js").vm = none
        ∧ (NewVmWithFile refEnv "missing.js").err
          = some (.withStack (.ext "stat missing.js: no such file or directory"))) :=
  ⟨NewVmWithFile_rejects refEnv "/tmp" (by intro info h; cases h; decide),
    NewVmWithFile_rejects refEnv "/dev/null" (by intro info h; cases h; decide),
    NewVmWithFile_rejects refEnv "missing.js" (by intro info h; cases h)⟩

/-- C7.  For a path whose stat describes a directory or a file that is not
regular, the stat is the only external call `NewVmWithFile` makes: the file is
not opened, nothing is read, no interpreter is created and no script is run; the
result is the `illegal js file` error and no runtime. -/
theorem NewVmWithFile_nonregular_stat_only (X : Env) (path : String) (info : FileInfo)
    (hstat : X.stat path = .ok info)
    (hbad : info.IsDir = true ∨ info.IsRegular = false) :
    (NewVmWithFile X path).events = [.stat path]
      ∧ (NewVmWithFile X path).vm = none
      ∧ (NewVmWithFile X path).err = some (.new "illegal js file") := by
  unfold NewVmWithFile
  rcases hbad with h | h <;> simp [hstat, h]

/-- C7, at the reference environment: the directory `/tmp`. -/
theorem NewVmWithFile_nonregular_stat_only_witness :
    refEnv.stat "/tmp" = .ok { IsDir := true, IsRegular := false }
      ∧ (NewVmWithFile refEnv "/tmp").events = [.stat "/tmp"]
      ∧ (NewVmWithFile refEnv "/tmp").vm = none
      ∧ (NewVmWithFile refEnv "/tmp").err = some (.new "illegal js file") :=
  ⟨rfl, NewVmWithFile_nonregular_stat_only refEnv "/tmp" { IsDir := true, IsRegular := false }
    rfl (Or.inl rfl)⟩

/-! ## Running `main` -/

/-- C8 (counterexample).  In the reference environment `NewVm` on the script
`function main(a,b){return a+b}` gives a runtime on which `Run([3,4])` enters
`main` with ONE argument, the array `[3,4]`: `a` is the array and `b` is
undefined, so the result is the text `3,4undefined`, not the number 7. -/
theorem Run_sum_not_seven :
    (NewVm refEnv sumScript).vm = some (refVm 0 sumScript)
      ∧ (Run refEngine (refVm 0 sumScript) (some [.int 3, .int 4])).events =
        [.get "main", .exportTo (.func 0), .invoke (some [.int 3, .int 4]),
          .scriptCall 0 [.arr [.num 3, .num 4]]]
      ∧ jsParam [.arr [.num 3, .num 4]] 0 = .arr [.num 3, .num 4]
      ∧ jsParam [.arr [.num 3, .num 4]] 1 = .undefined
      ∧ (Run refEngine (refVm 0 sumScript) (some [.int 3, .int 4])).out =
        .ret (.str "3,4undefined", none)
      ∧ (Run refEngine (refVm 0 sumScript) (some [.int 3, .int 4])).out ≠
        .ret (.int 7, none) := by
  refine ⟨rfl, rfl, rfl, rfl, rfl, ?_⟩
  have h : (Run refEngine (refVm 0 sumScript) (some [.int 3, .int 4])).out =
      .ret (.str "3,4undefined", none) := rfl
  rw [h]
  intro hc
  cases hc

/-- C8 (amended).  When `main` resolves to script function `f`, `Run([x, y])`
calls the exported function once with the list `[x, y]`, and `f` is entered with
exactly one positional argument, the script value of the whole list: its first
parameter is bound to the list and its second parameter is undefined.  In the
reference environment the script `function main(a,b){return a[0]+a[1]}` with
`Run([3,4])` gives the host value 7 and a nil error. -/
theorem Run_passes_list_as_one_argument (E : Engine) (v : WrappedVm) (x y : HostVal)
    (f : Nat) (hget : v.Vm.globals.lookup "main" = some (.func f)) :
    (Run E v (some [x, y])).events =
        [.get "main", .exportTo (.func f), .invoke (some [x, y]),
          .scriptCall f [E.toValue (.slice [x, y])]]
      ∧ jsParam [E.toValue (.slice [x, y])] 0 = E.toValue (.slice [x, y])
      ∧ jsParam [E.toValue (.slice [x, y])] 1 = .undefined
      ∧ (NewVm refEnv indexScript).vm = some (refVm 1 indexScript)
      ∧ (Run refEngine (refVm 1 indexScript) (some [.int 3, .int 4])).out =
        .ret (.int 7, none) := by
  refine ⟨?_, rfl, rfl, rfl, rfl⟩
  have hb := runFuncBody_bound E v "main" f (some [x, y]) hget
  simp only [Run, RunFunc, hb]
  split
  · rfl
  · split <;> rfl

/-- C8 (amended), at the reference interpreter with the script
`function main(a,b){return a+b}`. -/
theorem Run_passes_list_as_one_argument_witness :
    (refVm 0 sumScript).Vm.globals.lookup "main" = some (.func 0)
      ∧ (Run refEngine (refVm 0 sumScript) (some [.int 3, .int 4])).events =
        [.get "main", .exportTo (.func 0), .invoke (some [.int 3, .int 4]),
          .scriptCall 0 [refEngine.toValue (.slice [.int 3, .int 4])]] :=
  ⟨rfl, (Run_passes_list_as_one_argument refEngine (refVm 0 sumScript) (.int 3) (.int 4) 0
    rfl).1⟩

/-- C9.  When `main` resolves to a script function that returns `r` without
fault whatever its arguments, `Run(nil)` returns the host value of `r` with a nil
error, and `Run(args)` returns the same for every `args`; `Run(args)` is
`RunFunc("main", args)`. -/
theorem Run_nil_same_result (E : Engine) (v : WrappedVm) (f : Nat) (r : JsVal)
    (hget : v.Vm.globals.lookup "main" = some (.func f))
    (hconst : ∀ as, (E.call f as v.Vm).1 = .ret r) :
    (Run E v none).out = .ret (E.exportValue r, none)
      ∧ (∀ args, (Run E v args).out = (Run E v none).out)
      ∧ (∀ args, Run E v args = RunFunc E v "main" args) := by
  have key : ∀ args, (Run E v args).out = .ret (E.exportValue r, none) := by
    intro args
    have hb := runFuncBody_bound E v "main" f args hget
    simp [Run, RunFunc, hb, gateway, hconst, Outcome.map]
  exact ⟨key none, fun args => (key args).trans (key none).symm, fun _ => rfl⟩

/-- C9, at the reference interpreter: `main` returns 42. -/
theorem Run_nil_same_result_witness :
    (Run refEngine (refVm 4 constScript) none).out = .ret (.int 42, none)
      ∧ (∀ args, (Run refEngine (refVm 4 constScript) args).out
          = (Run refEngine (refVm 4 constScript) none).out)
      ∧ (∀ args, Run refEngine (refVm 4 constScript) args
          = RunFunc refEngine (refVm 4 constScript) "main" args) :=
  Run_nil_same_result refEngine (refVm 4 constScript) 4 (.num 42) rfl (fun _ => rfl)

/-! ## Registration -/

/-- C10 (counterexample).  At the reference interpreter the name `undefined` is
a read-only global: the host value 1 has a script value, yet
`RegisterModule("undefined", 1)` returns the error of `Set`, wrapped with its
stack, and leaves the name without binding; the registration does not succeed
for every name. -/
theorem RegisterModule_readonly_name_fails :
    refEngine.toValue (.int 1) = .num 1
      ∧ (RegisterModule refEngine (refVm 0 sumScript) "undefined" (.int 1)).2.1
        = some (.withStack (.ext "TypeError: Cannot assign to read only property"))
      ∧ (RegisterModule refEngine (refVm 0 sumScript) "undefined" (.int 1)).2.1 ≠ none
      ∧ (RegisterModule refEngine (refVm 0 sumScript) "undefined" (.int 1)).1.Vm.globals.lookup
          "undefined" = none := by
  refine ⟨rfl, rfl, ?_, rfl⟩
  decide

/-- C10 (amended).  When the `Set` of the interpreter accepts the binding of
`n` to `c1` and then that of `n` to `c2`, `RegisterModule(n, c1)` followed by
`RegisterModule(n, c2)` both return a nil error, and afterwards the lookup of
`n` in the global scope gives the script value of `c2`.  For every runtime, name
and value, the error `RegisterModule` returns is that of `Set`, wrapped with its
stack: it makes no check of its own and fails exactly when `Set` fails. -/
theorem RegisterModule_twice_overwrites (E : Engine) (v : WrappedVm) (n : String)
    (c1 c2 : HostVal)
    (h1 : E.setFault v.Vm n c1 = none)
    (h2 : E.setFault (RegisterModule E v n c1).1.Vm n c2 = none) :
    (RegisterModule E v n c1).2.1 = none
      ∧ (RegisterModule E (RegisterModule E v n c1).1 n c2).2.1 = none
      ∧ E.Get (RegisterModule E (RegisterModule E v n c1).1 n c2).1.Vm n
          = .ret (E.toValue c2)
      ∧ (∀ w m c, (RegisterModule E w m c).2.1
          = ((E.Set w.Vm m c).2).map GoError.withStack) := by
  refine ⟨?_, ?_, ?_, ?_⟩
  · rw [registerModule_err, h1]; rfl
  · rw [registerModule_err, h2]; rfl
  · have e1 : (RegisterModule E (RegisterModule E v n c1).1 n c2).1.Vm
        = ⟨(n, E.toValue c2) :: (RegisterModule E v n c1).1.Vm.globals⟩ := by
      simp [RegisterModule, Engine.Set, h1, h2] at h2 ⊢
      simp [h2]
    rw [e1]
    simp [Engine.Get, List.lookup]
  · intro w m c
    rw [registerModule_err]
    unfold Engine.Set
    cases E.setFault w.Vm m c <;> rfl

/-- C10 (amended), at the reference interpreter: the name `console` is bound a second and
a third time. -/
theorem RegisterModule_twice_overwrites_witness :
    (RegisterModule refEngine (refVm 0 sumScript) "console" (.object 7)).2.1 = none
      ∧ (RegisterModule refEngine
          (RegisterModule refEngine (refVm 0 sumScript) "console" (.object 7)).1
          "console" (.object 8)).2.1 = none
      ∧ refEngine.Get (RegisterModule refEngine
          (RegisterModule refEngine (refVm 0 sumScript) "console" (.object 7)).1
          "console" (.object 8)).1.Vm "console" = .ret (refEngine.toValue (.object 8)) :=
  ⟨(RegisterModule_twice_overwrites refEngine (refVm 0 sumScript) "console" (.object 7)
      (.object 8) rfl rfl).1,
    (RegisterModule_twice_overwrites refEngine (refVm 0 sumScript) "console" (.object 7)
      (.object 8) rfl rfl).2.1,
    (RegisterModule_twice_overwrites refEngine (refVm 0 sumScript) "console" (.object 7)
      (.object 8) rfl rfl).2.2.1⟩

end JsVm
